import Mathlib

/-!
Verification development for the SHANGRLA audit core (`Code/Audit.py`).

The Python source is shallowly embedded here:

* real-valued quantities become `ℚ` (all source arithmetic is exact
  field arithmetic on floats; no rounding behaviour is at issue in the
  claims checked below);
* the external cast-vote-record type `CVR` (imported from the `CVR`
  module, not part of the audited file) is modelled as a minimal record
  exposing exactly the capability interface the audited code uses:
  a `phantom` flag and a contest-membership test;
* fallible code (Python `raise`, failing `assert` statements, and
  references to names that are not defined in the enclosing scope,
  which raise `NameError` / `TypeError` / `AttributeError` at run time)
  becomes `Except String`; the error strings name the Python exception
  that the corresponding line raises;
* the mutating batch operations (`set_all_margins`, `set_all_p_values`,
  `make_all_assertions`) become state-passing functions that return the
  updated contest mapping; Python dicts keyed by identifier become
  association lists, preserving iteration order.
-/

/-- Ballot record (external `CVR` class).  Modelled from the spec's
capability interface: the audited code consults only the `phantom` flag
and `has_contest`.  `contests` is the set of contests the record
contains. -/
structure CVR where
  phantom : Bool
  contests : List String
deriving Repr

/-- `CVR.has_contest` from the external capability interface. -/
def CVR.has_contest (c : CVR) (contest_id : String) : Bool :=
  c.contests.contains contest_id

/-- `Audit.AUDIT_TYPE.POLLING` (Audit.py line 33). -/
def POLLING : String := "POLLING"

/-- `Audit.AUDIT_TYPE.BALLOT_COMPARISON` (Audit.py line 34). -/
def BALLOT_COMPARISON : String := "BALLOT_COMPARISON"

/-- `Audit.SOCIAL_CHOICE_FUNCTION.PLURALITY` (Audit.py line 25). -/
def PLURALITY : String := "PLURALITY"

/-- `Audit.SOCIAL_CHOICE_FUNCTION.SUPERMAJORITY` (Audit.py line 26). -/
def SUPERMAJORITY : String := "SUPERMAJORITY"

/-- `Audit.SOCIAL_CHOICE_FUNCTION.IRV` (Audit.py line 27). -/
def IRV : String := "IRV"

/-- `Assorter` (Audit.py lines 733-795): a bounded scoring function on
ballot records.  The callable fields of the Python object become
function-valued fields; `winner`/`loser` are `Option`-valued because the
Python constructor allows them to be `None` (not callable). -/
structure Assorter where
  contest_id : String := ""
  assort : CVR → ℚ
  winner : Option (CVR → ℚ) := none
  loser : Option (CVR → ℚ) := none
  upper_bound : ℚ := 1

/-- `Assorter.__init__` (Audit.py lines 764-795).  A Python argument that
is `None` is `none`; a callable argument is `some`.  The two `assert`
statements of the constructor become the two error branches, checked in
the source's order (winner first, then loser).  When `assort` is absent
the derived scorer `(winner(c) - loser(c) + 1)/2` (line 795) is
installed. -/
def Assorter.make (contest_id : String) (assort : Option (CVR → ℚ))
    (winner loser : Option (CVR → ℚ)) (upper_bound : ℚ) : Except String Assorter :=
  match assort with
  | some f =>
      .ok { contest_id := contest_id, assort := f, winner := winner,
            loser := loser, upper_bound := upper_bound }
  | none =>
      match winner with
      | none => .error "AssertionError: winner must be callable if assort is None"
      | some w =>
          match loser with
          | none => .error "AssertionError: loser must be callable if assort is None"
          | some l =>
              .ok { contest_id := contest_id,
                    assort := fun cvr => (w cvr - l cvr + 1) / 2,
                    winner := some w, loser := some l, upper_bound := upper_bound }

/-- `Assertion` (Audit.py lines 39-88).  The Python object holds a
reference to its `Contest`; to avoid a cyclic structure the embedding
keeps the one field of that reference the assertion-level methods read
(`self.contest.id`, used by `overstatement` and the aggregation
helpers); contest-level data (risk limit, audit type) is passed to the
methods that need it by their callers, exactly as the batch operations
read it from the contest mapping.  `margin` defaults to `0`, standing in
for the Python default `None`.  `test` is the pluggable sequential test:
`test(d)` returns the pair `(p_value, p_history)`. -/
structure Assertion where
  contest_id : String
  assorter : Assorter
  margin : ℚ := 0
  test : List ℚ → ℚ × List ℚ
  p_value : ℚ := 1
  p_history : List ℚ := []
  proved : Bool := false
  sample_size : Option ℤ := none

/-- One RAIRE-style JSON assertion record (consumed by
`make_assertions_from_json`, Audit.py lines 524-588). -/
structure RaireAssertion where
  assertion_type : String
  winner : String
  loser : String
  already_eliminated : List String
deriving Repr

/-- `Contest` (Audit.py lines 808-867), restricted to the attributes the
audited batch operations read or write.  Defaults mirror the Python
constructor defaults (risk_limit 0.05, audit type ballot comparison,
plurality, `use_style=True`).  `margins`, `p_values`, `proved` and
`max_p` are the derived per-contest maps the batch operations install;
`proved` holds `int(...)` flags as in line 725 of the source. -/
structure Contest where
  id : String := ""
  name : String := ""
  risk_limit : ℚ := 1/20
  cards : ℤ := 0
  choice_function : String := PLURALITY
  n_winners : ℤ := 1
  share_to_win : Option ℚ := none
  candidates : List String := []
  reported_winners : List String := []
  audit_type : String := BALLOT_COMPARISON
  use_style : Bool := true
  assertions : List (String × Assertion) := []
  assertion_json : List RaireAssertion := []
  margins : List (String × ℚ) := []
  p_values : List (String × ℚ) := []
  proved : List (String × ℤ) := []
  max_p : ℚ := 0
  sample_size : Option ℤ := none

/-- `Assertion.overstatement` (Audit.py lines 232-275), with the
source's exact branch structure: the `not use_style` branch first, then
the `use_style` branch, which raises when the CVR does not contain the
contest (line 274). -/
def Assertion.overstatement (a : Assertion) (mvr cvr : CVR) (use_style : Bool) :
    Except String ℚ :=
  if use_style = false then
    .ok (a.assorter.assort cvr - (if mvr.phantom = false then a.assorter.assort mvr else 0))
  else
    if cvr.has_contest a.contest_id then
      let cvr_assort : ℚ := if cvr.phantom then 1/2 else a.assorter.assort cvr
      let mvr_assort : ℚ :=
        if mvr.phantom || !(mvr.has_contest a.contest_id) then 0 else a.assorter.assort mvr
      .ok (cvr_assort - mvr_assort)
    else
      .error "Assertion.overstatement: use_style==True but CVR does not contain the contest"

/-- The scalar formula of Audit.py line 303: `(1 - o/u)/(2 - margin/u)`,
as a function of the overstatement `o`, the assorter upper bound `u` and
the stored margin. -/
def overstatement_assorter_val (o u margin : ℚ) : ℚ :=
  (1 - o / u) / (2 - margin / u)

/-- `Assertion.overstatement_assorter` (Audit.py lines 277-303): the
normalized overstatement statistic, propagating the error raised by
`overstatement`. -/
def Assertion.overstatement_assorter (a : Assertion) (mvr cvr : CVR) (use_style : Bool) :
    Except String ℚ :=
  (a.overstatement mvr cvr use_style).map
    (fun o => (1 - o / a.assorter.upper_bound) / (2 - a.margin / a.assorter.upper_bound))

/-- `Assertion.assorter_mean` (Audit.py lines 103-125): `np.mean` of the
assorter over the CVRs passing the style filter.  On an empty filtered
list `np.mean` yields `nan`; in `ℚ` the division by the length `0`
yields `0` instead, so theorems below that invoke the mean always carry
a nonemptiness hypothesis. -/
def Assertion.assorter_mean (a : Assertion) (cvr_list : List CVR) (use_style : Bool) : ℚ :=
  let filtered :=
    if use_style then cvr_list.filter (fun c => c.has_contest a.contest_id) else cvr_list
  ((filtered.map a.assorter.assort).sum) / (filtered.length : ℚ)

/-- `Assertion.find_margin` (Audit.py lines 305-328).  `cvr_list`
defaults to `None` in Python; calling with `none` makes `assorter_mean`
iterate over `None` (`TypeError`).  When the mean is below 1/2 the
source evaluates the f-string `f"assertion {a} not satisfied..."` in
which the name `a` is not defined in any enclosing scope, so the call
raises `NameError` instead of warning (line 327); only when the mean is
at least 1/2 does it reach line 328 and store `margin = 2*mean - 1`. -/
def Assertion.find_margin (a : Assertion) (cvr_list : Option (List CVR)) (use_style : Bool) :
    Except String Assertion :=
  match cvr_list with
  | none => .error "TypeError: NoneType object is not iterable"
  | some l =>
      let amean := a.assorter_mean l use_style
      if amean < 1/2 then .error "NameError: name a is not defined"
      else .ok { a with margin := 2 * amean - 1 }

/-- `Assertion.set_all_margins` (Audit.py lines 633-663).  The supplied
CVR population `cvr_list` is accepted but never forwarded: line 660
invokes `find_margin(use_style=use_style)`, leaving `find_margin`'s
`cvr_list` parameter at its default `None`, so the first assertion of
the first contest that has any assertion raises `TypeError` inside
`assorter_mean` (iteration over `None`).  A contest with no assertions
only has its `margins` map reset to empty.  The second component models
`min_margin`, initialised to `np.infty` (`none` = no margin seen). -/
def set_all_margins (contests : List (String × Contest)) (cvr_list : List CVR)
    (use_style : Bool) : Except String (List (String × Contest) × Option ℚ) :=
  match contests with
  | [] => .ok ([], none)
  | (k, c) :: rest =>
      match c.assertions with
      | [] =>
          (set_all_margins rest cvr_list use_style).map
            (fun r => ((k, { c with margins := [] }) :: r.1, r.2))
      | _ :: _ => .error "TypeError: NoneType object is not iterable"

/-- `Assertion.sample_size` (Audit.py lines 357-430), the per-assertion
sample-size estimator (named `sampleSizeEstimate` here because the Lean
field accessor `Assertion.sample_size` already names the stored
attribute).  The contest the Python method reads through `self.contest`
is passed explicitly.  Control flow of the source:

* line 413: `assert self.margin > 0` — a nonpositive margin fails the
  precondition;
* with `data` supplied, line 415 computes the estimate but line 429
  (`self.sample_size = sam_size`) references the undefined name
  `sam_size` (the local is `sample_size`), raising `NameError`;
* with `data = None` and a polling contest, line 420 reads `self.u`,
  an attribute `Assertion` does not have (`AttributeError`);
* with `data = None` otherwise, `small_rate` is the raw `rate`
  (line 422): `None` cannot be compared with `0` (`TypeError`,
  line 426); a rate above 1 makes `int(1/small_rate)` zero and the
  modulus on line 426 raises `ZeroDivisionError`; any surviving path
  reaches line 429 and its `NameError`.

Every path therefore raises; no path stores or returns an estimate. -/
def Assertion.sampleSizeEstimate (a : Assertion) (c : Contest) (data : Option (List ℚ))
    (rate : Option ℚ) : Except String ℤ :=
  if a.margin ≤ 0 then .error "AssertionError: Margin is nonpositive"
  else
    match data with
    | some _ => .error "NameError: name sam_size is not defined"
    | none =>
        if c.audit_type = POLLING then
          .error "AttributeError: Assertion object has no attribute u"
        else
          match rate with
          | none => .error "TypeError: not supported between instances of NoneType and int"
          | some r =>
              if 1 < r then .error "ZeroDivisionError: integer division or modulo by zero"
              else .error "NameError: name sam_size is not defined"

/-- `Assertion.make_all_assertions` (Audit.py lines 590-631).  The
dispatch on the social-choice function is faithful to the source; the
branch bodies record what the dispatched calls do at run time:

* PLURALITY (line 617): `make_plurality_assertions` is called with
  keyword arguments `test` and `estim` that the classmethod (line 433)
  does not accept — `TypeError` before any assertion is built;
* SUPERMAJORITY (line 620): the call passes `winners` and
  `share_to_win`, neither a parameter of `make_supermajority_assertion`
  (line 469) — `TypeError`;
* IRV (line 625): the keyword interface matches, but the loop variable
  `c` (the contest KEY, a string) is passed as the `contest` object, so
  the first JSON assertion's construction reads `contest.id` off a
  string — `AttributeError`; with an empty `assertion_json` the loop
  body never runs and the empty assertion dict is stored;
* anything else: `NotImplementedError` (line 630). -/
def make_all_assertions (contests : List (String × Contest)) :
    Except String (List (String × Contest)) :=
  match contests with
  | [] => .ok []
  | (k, c) :: rest =>
      if c.choice_function = PLURALITY then
        .error "TypeError: make_plurality_assertions() got an unexpected keyword argument test"
      else if c.choice_function = SUPERMAJORITY then
        .error "TypeError: make_supermajority_assertion() got an unexpected keyword argument winners"
      else if c.choice_function = IRV then
        if c.assertion_json.isEmpty then
          (make_all_assertions rest).map
            (fun rest' => (k, { c with assertions := [] }) :: rest')
        else .error "AttributeError: str object has no attribute id"
      else
        .error ("NotImplementedError: Social choice function " ++ c.choice_function ++
                " is not implemented.")

/-- The comparison-branch style filter of `set_all_p_values`
(Audit.py line 712): `(not use_style) or cvr_sample[i].has_contest(c)`,
where `c` is the contest key. -/
def comparisonFilter (contest_key : String) (use_style : Bool) (cvr : CVR) : Bool :=
  !use_style || cvr.has_contest contest_key

/-- The discrepancy sequence `d` that `set_all_p_values` builds for one
assertion (Audit.py lines 709-718), by audit type:

* BALLOT_COMPARISON (lines 710-712): the comprehension filters indices
  with `comparisonFilter`; for every index that survives, the element
  expression calls
  `overstatement_assorter(mvr_sample[i], cvr_sample[i], margin,
  use_style=use_style)`, passing `margin` positionally into the
  `use_style` slot and `use_style` again by keyword — `TypeError: got
  multiple values for argument use_style` on the first surviving index
  (with `cvr_sample = None`, indexing `None` raises `TypeError` first).
  Only an empty selection yields a value: the empty list.
* POLLING (line 715): `assort(mvr_sample[i])` for every index of
  `mvr_sample` — no filter, no use of `use_style`.
* any other audit type: `NotImplementedError` (line 718).

The unused bound `u` that lines 713 and 716 compute is dead in the
source (it is never passed to the test) and is not modelled. -/
def dSelect (atype : String) (use_style : Bool) (contest_key : String)
    (mvr_sample : List CVR) (cvr_sample : Option (List CVR)) (a : Assertion) :
    Except String (List ℚ) :=
  if atype = BALLOT_COMPARISON then
    match cvr_sample with
    | none =>
        if mvr_sample.isEmpty then .ok []
        else .error "TypeError: NoneType object is not subscriptable"
    | some cs =>
        if ((List.range mvr_sample.length).filter
              (fun i => comparisonFilter contest_key use_style (cs.getD i ⟨false, []⟩))).isEmpty then
          .ok []
        else
          .error "TypeError: overstatement_assorter() got multiple values for argument use_style"
  else if atype = POLLING then
    .ok (mvr_sample.map a.assorter.assort)
  else
    .error ("NotImplementedError: audit type " ++ atype ++ " not implemented")

/-- The per-assertion update of `set_all_p_values` (Audit.py lines
719-723) applied to a discrepancy sequence `d`: run the pluggable test,
install `p_value` and `p_history`, and set
`proved := (p_value <= risk_limit) or proved` (sticky).  Returns the
updated assertion together with its new p-value. -/
def testAndUpdate (risk_limit : ℚ) (a : Assertion) (d : List ℚ) : Assertion × ℚ :=
  let r := a.test d
  ({ a with p_value := r.1, p_history := r.2,
            proved := decide (r.1 ≤ risk_limit) || a.proved }, r.1)

/-- One assertion of one contest inside `set_all_p_values`: build `d`
(per audit type), then test and update. -/
def update_assertion (risk_limit : ℚ) (atype : String) (use_style : Bool)
    (contest_key : String) (mvr_sample : List CVR) (cvr_sample : Option (List CVR))
    (a : Assertion) : Except String (Assertion × ℚ) :=
  (dSelect atype use_style contest_key mvr_sample cvr_sample a).map
    (fun d => testAndUpdate risk_limit a d)

/-- The inner assertion loop of `set_all_p_values` (Audit.py lines
705-726) over one contest's assertion map: returns the updated
assertions, the `p_values` map, the `proved` map (with `int(...)` flags,
line 725), and `contest_max_p` (initialised to 0, line 703, and folded
with `np.max`, line 726). -/
def update_assertion_list (risk_limit : ℚ) (atype : String) (use_style : Bool)
    (contest_key : String) (mvr_sample : List CVR) (cvr_sample : Option (List CVR)) :
    List (String × Assertion) →
      Except String (List (String × Assertion) × List (String × ℚ) × List (String × ℤ) × ℚ)
  | [] => .ok ([], [], [], 0)
  | (k, a) :: rest =>
      match update_assertion risk_limit atype use_style contest_key mvr_sample cvr_sample a with
      | .error e => .error e
      | .ok r =>
          match update_assertion_list risk_limit atype use_style contest_key mvr_sample
                  cvr_sample rest with
          | .error e => .error e
          | .ok t =>
              .ok ((k, r.1) :: t.1, (k, r.2) :: t.2.1,
                   (k, if r.1.proved then 1 else 0) :: t.2.2.1, max r.2 t.2.2.2)

/-- The per-contest body of `set_all_p_values` (Audit.py lines 700-727):
runs the assertion loop with this contest's risk limit, audit type,
`use_style` flag and key, then installs the derived maps and `max_p`.
Returns the updated contest and its `max_p`. -/
def update_contest (mvr_sample : List CVR) (cvr_sample : Option (List CVR))
    (k : String) (c : Contest) : Except String (Contest × ℚ) :=
  match update_assertion_list c.risk_limit c.audit_type c.use_style k
          mvr_sample cvr_sample c.assertions with
  | .error e => .error e
  | .ok r =>
      .ok ({ c with assertions := r.1, p_values := r.2.1, proved := r.2.2.1,
                    max_p := r.2.2.2 }, r.2.2.2)

/-- The contest loop of `set_all_p_values` (Audit.py lines 699-728):
`p_max` starts at 0 and is folded with `np.max` over the per-contest
maxima. -/
def update_contest_list (mvr_sample : List CVR) (cvr_sample : Option (List CVR)) :
    List (String × Contest) → Except String (List (String × Contest) × ℚ)
  | [] => .ok ([], 0)
  | (k, c) :: rest =>
      match update_contest mvr_sample cvr_sample k c with
      | .error e => .error e
      | .ok r =>
          match update_contest_list mvr_sample cvr_sample rest with
          | .error e => .error e
          | .ok t => .ok ((k, r.1) :: t.1, max r.2 t.2)

/-- `Assertion.set_all_p_values` (Audit.py lines 665-729).  The entry
`assert` (line 698) compares the sample lengths only when a CVR sample
is supplied. -/
def set_all_p_values (contests : List (String × Contest)) (mvr_sample : List CVR)
    (cvr_sample : Option (List CVR)) : Except String (List (String × Contest) × ℚ) :=
  match cvr_sample with
  | some cs =>
      if mvr_sample.length = cs.length then update_contest_list mvr_sample (some cs) contests
      else .error "AssertionError: unequal numbers of cvrs and mvrs"
  | none => update_contest_list mvr_sample none contests

/-- Projection used to state closed corollaries: the contest list of a
successful `set_all_p_values` run (empty on error). -/
def contestsOf (r : Except String (List (String × Contest) × ℚ)) : List (String × Contest) :=
  match r with
  | .ok x => x.1
  | .error _ => []

/-- Projection used to state closed corollaries: the returned `p_max` of
a successful `set_all_p_values` run (0 on error). -/
def pmaxOf (r : Except String (List (String × Contest) × ℚ)) : ℚ :=
  match r with
  | .ok x => x.2
  | .error _ => 0

/-- What one pass of `set_all_p_values` establishes for one contest: the
risk limit is untouched, `max_p` is the (nonnegative) least upper bound
of the new p-values, and every assertion's `proved` flag follows the
sticky update rule of Audit.py lines 721-723 with its new p-value. -/
def contestUpdated (kc kc' : String × Contest) : Prop :=
  kc'.2.risk_limit = kc.2.risk_limit ∧
  0 ≤ kc'.2.max_p ∧
  (∀ q : ℚ, 0 ≤ q → (∀ ka' ∈ kc'.2.assertions, ka'.2.p_value ≤ q) → kc'.2.max_p ≤ q) ∧
  List.Forall₂ (fun ka ka' : String × Assertion =>
      ka'.2.p_value ≤ kc'.2.max_p ∧
      ka'.2.proved = (decide (ka'.2.p_value ≤ kc.2.risk_limit) || ka.2.proved))
    kc.2.assertions kc'.2.assertions

/-! Concrete fixtures used by the closed witness and counterexample
theorems below. -/

/-- A non-phantom ballot record containing contest "c1". -/
def cvrYes : CVR := ⟨false, ["c1"]⟩

/-- A non-phantom ballot record containing no contest. -/
def cvrNo : CVR := ⟨false, []⟩

/-- A phantom ballot record carrying contest "c1" (as `make_phantoms`
assigns contests but not votes to phantom CVRs). -/
def cvrPhantom : CVR := ⟨true, ["c1"]⟩

/-- An assorter for contest "c1" scoring every non-phantom ballot 1 and
every phantom ballot 0, with upper bound 1. -/
def unitAssorter : Assorter :=
  { contest_id := "c1", assort := fun c => if c.phantom then 0 else 1, upper_bound := 1 }

/-- An assorter for contest "c1" scoring every ballot 0. -/
def zeroAssorter : Assorter :=
  { contest_id := "c1", assort := fun _ => 0, upper_bound := 1 }

/-- An assertion on contest "c1" with positive stored margin. -/
def asrt1 : Assertion :=
  { contest_id := "c1", assorter := unitAssorter, margin := 1/5, test := fun _ => (1, []) }

/-- An assertion on contest "c1" with margin 0 (standing for the Python
default `None`, which is also nonpositive for the precondition check). -/
def asrt0 : Assertion :=
  { contest_id := "c1", assorter := unitAssorter, margin := 0, test := fun _ => (1, []) }

/-- An assertion whose assorter scores every ballot 0, so its mean over
any nonempty population is 0 < 1/2. -/
def asrt7 : Assertion :=
  { contest_id := "c1", assorter := zeroAssorter, test := fun _ => (1, []) }

/-- An already-proved assertion whose sequential test reports p-value 1
on any sample. -/
def c4Assertion : Assertion :=
  { contest_id := "c1", assorter := unitAssorter, margin := 1/5,
    test := fun _ => (1, [1]), proved := true }

/-- A polling contest at risk limit 1/20 holding `c4Assertion`. -/
def c4Contest : Contest :=
  { id := "c1", risk_limit := 1/20, audit_type := POLLING, use_style := false,
    assertions := [("A v B", c4Assertion)] }

/-- A not-yet-proved assertion whose test reports p-value 1/10. -/
def wAssertion : Assertion :=
  { contest_id := "c1", assorter := unitAssorter, margin := 1/5,
    test := fun _ => (1/10, [1/10]), proved := false }

/-- A polling contest at risk limit 1/20 holding `wAssertion`. -/
def wContest : Contest :=
  { id := "c1", risk_limit := 1/20, audit_type := POLLING, use_style := true,
    assertions := [("A v B", wAssertion)] }

/-- Input contest mapping for the `set_all_p_values` witnesses. -/
def wIn : List (String × Contest) := [("c1", wContest)]

/-- The witness run of `set_all_p_values` on an empty manual sample. -/
def wRun : Except String (List (String × Contest) × ℚ) := set_all_p_values wIn [] none

/-- Contest mapping produced by the witness run. -/
def wOut : List (String × Contest) := contestsOf wRun

/-- `p_max` produced by the witness run. -/
def wPm : ℚ := pmaxOf wRun

/-- A polling contest (for exercising `sampleSizeEstimate`). -/
def c6Contest : Contest := { id := "c1", audit_type := POLLING }

/-- A contest holding one assertion (for exercising `set_all_margins`). -/
def c8Contest : Contest := { id := "c8", assertions := [("A v B", asrt1)] }

/-- A two-candidate plurality contest with a reported winner. -/
def c9Plur : Contest :=
  { id := "c9", choice_function := PLURALITY, candidates := ["Alice", "Bob"],
    reported_winners := ["Alice"] }

/-- A contest whose social-choice function is not supported. -/
def c9Bad : Contest := { id := "bad", choice_function := "APPROVAL" }

/-- The assorter `Assorter.make "c" none (some (fun _ => 1))
(some (fun _ => 0)) 1` constructs: the derived winner/loser scorer. -/
def c3wA : Assorter :=
  { contest_id := "c", assort := fun _ => ((1:ℚ) - 0 + 1) / 2,
    winner := some (fun _ => 1), loser := some (fun _ => 0), upper_bound := 1 }

/-! Theorems. -/

/-- Claim C1: for every pair (mvr, cvr), `overstatement` with
`use_style=True` errors when the CVR does not contain the assertion's
contest and otherwise returns `cvr_side - mvr_side`, where `cvr_side`
is 1/2 for a phantom CVR and `assort(cvr)` otherwise, and `mvr_side` is
0 when the MVR is phantom or lacks the contest and `assort(mvr)`
otherwise; with `use_style=False` it returns
`assort(cvr) - (assort(mvr) if mvr is not phantom else 0)`. -/
theorem C1_overstatement (a : Assertion) (mvr cvr : CVR) :
    (cvr.has_contest a.contest_id = false →
      a.overstatement mvr cvr true =
        .error "Assertion.overstatement: use_style==True but CVR does not contain the contest") ∧
    (cvr.has_contest a.contest_id = true →
      a.overstatement mvr cvr true =
        .ok ((if cvr.phantom then 1/2 else a.assorter.assort cvr) -
             (if mvr.phantom = true ∨ mvr.has_contest a.contest_id = false then 0
              else a.assorter.assort mvr))) ∧
    a.overstatement mvr cvr false =
      .ok (a.assorter.assort cvr - (if mvr.phantom then 0 else a.assorter.assort mvr)) := by
  refine ⟨fun h => ?_, fun h => ?_, ?_⟩
  · simp [Assertion.overstatement, h]
  · by_cases hp : mvr.phantom <;> by_cases hm : mvr.has_contest a.contest_id <;>
      simp [Assertion.overstatement, h, hp, hm]
  · by_cases hp : mvr.phantom <;> simp [Assertion.overstatement, hp]

/-- Witness for C1: concrete instances of all three branches, with the
hypotheses discharged by evaluation. -/
theorem C1_witness :
    (cvrNo.has_contest asrt1.contest_id = false) ∧
    asrt1.overstatement cvrYes cvrNo true =
      .error "Assertion.overstatement: use_style==True but CVR does not contain the contest" ∧
    (cvrYes.has_contest asrt1.contest_id = true) ∧
    asrt1.overstatement cvrPhantom cvrYes true =
      .ok ((if cvrYes.phantom then 1/2 else asrt1.assorter.assort cvrYes) -
           (if cvrPhantom.phantom = true ∨ cvrYes.has_contest asrt1.contest_id = false then 0
            else asrt1.assorter.assort cvrPhantom)) ∧
    asrt1.overstatement cvrYes cvrNo false =
      .ok (asrt1.assorter.assort cvrNo -
           (if cvrYes.phantom then 0 else asrt1.assorter.assort cvrYes)) :=
  ⟨rfl, (C1_overstatement asrt1 cvrYes cvrNo).1 rfl, rfl,
   (C1_overstatement asrt1 cvrPhantom cvrYes).2.1 rfl,
   (C1_overstatement asrt1 cvrYes cvrNo).2.2⟩

/-- Claim C6 (code_bug evidence): `sample_size` with `data=None` on a
polling contest and positive margin raises `AttributeError` (the source
reads `self.u`, which `Assertion` does not define) instead of building
the interleaved population and storing the estimate; with data supplied
it raises `NameError` (`sam_size` is never assigned); the nonpositive
margin precondition check itself behaves as the claim states. -/
theorem C6_sample_size_always_raises :
    asrt1.sampleSizeEstimate c6Contest none none =
      .error "AttributeError: Assertion object has no attribute u" ∧
    asrt0.sampleSizeEstimate c6Contest none none =
      .error "AssertionError: Margin is nonpositive" ∧
    asrt1.sampleSizeEstimate c6Contest (some [1]) none =
      .error "NameError: name sam_size is not defined" := by
  refine ⟨?_, rfl, ?_⟩ <;>
    norm_num [Assertion.sampleSizeEstimate, asrt1, c6Contest, POLLING]

/-- Claim C7 (code_bug evidence): on a nonempty CVR list whose assorter
mean is below 1/2, `find_margin` raises `NameError` (the warning message
f-string references the undefined name `a`) instead of warning, and no
margin is stored; on a mean of at least 1/2 the margin `2*mean - 1` is
stored as the claim says. -/
theorem C7_find_margin_behavior :
    asrt7.find_margin (some [cvrNo]) false = .error "NameError: name a is not defined" ∧
    (asrt1.find_margin (some [cvrYes]) false).map (fun x => x.margin) = .ok 1 := by
  constructor <;>
    norm_num [Assertion.find_margin, Assertion.assorter_mean, asrt7, asrt1,
      zeroAssorter, unitAssorter, cvrNo, cvrYes, Except.map]

/-- Claim C8 (code_bug evidence): `set_all_margins` on any contest
mapping with at least one assertion raises `TypeError` — line 660 calls
`find_margin(use_style=use_style)` without forwarding the supplied CVR
population, so `assorter_mean` iterates over `None`.  No margins are
stored and no minimum margin is returned, so repeated calls never yield
the stored margins the claim speaks about. -/
theorem C8_set_all_margins_raises :
    set_all_margins [("c8", c8Contest)] [cvrYes] true =
      .error "TypeError: NoneType object is not iterable" ∧
    set_all_margins [] [cvrYes] true = .ok ([], none) :=
  ⟨rfl, rfl⟩

/-- Claim C9 (code_bug evidence): `make_all_assertions` on a plurality
contest raises `TypeError` — the dispatch passes keyword arguments
`test` and `estim` that `make_plurality_assertions` does not accept (and
the contest key instead of the contest object) — so no assertions are
stored; the hard error for an unsupported social-choice function does
occur as the claim states. -/
theorem C9_make_all_assertions_dispatch :
    make_all_assertions [("c9", c9Plur)] =
      .error "TypeError: make_plurality_assertions() got an unexpected keyword argument test" ∧
    make_all_assertions [("bad", c9Bad)] =
      .error "NotImplementedError: Social choice function APPROVAL is not implemented." :=
  ⟨rfl, rfl⟩

/-- Claim C2, counterexample to the interval part as stated: with
`u = 1/2` and `margin = 1/4` (so `0 < margin ≤ u`), the overstatement
`o = -1/2 = -u` is inside the claimed legal range `[-u, 2u]`, yet the
returned value `(1 - o/u)/(2 - margin/u) = 4/3` exceeds the claimed
upper endpoint `2u/(2 - margin/u) = 2/3`. -/
theorem C2_counterexample :
    0 < (1/4 : ℚ) ∧ (1/4 : ℚ) ≤ 1/2 ∧
    -(1/2 : ℚ) ≤ -(1/2 : ℚ) ∧ -(1/2 : ℚ) ≤ 2 * (1/2) ∧
    2 * (1/2) / (2 - (1/4) / (1/2)) < overstatement_assorter_val (-(1/2)) (1/2) (1/4) := by
  norm_num [overstatement_assorter_val]

/-- Claim C2 as amended: `overstatement_assorter` returns
`(1 - o/u)/(2 - margin/u)` with `o` the overstatement; and for every
overstatement value `o ∈ [-u, u]` (the range realizable when the
assorter respects its bound), given `0 < margin ≤ u`, the value lies in
`[0, 2/(2 - margin/u)]` (equivalently `[0, 2u/(2u - margin)]`). -/
theorem C2_amended :
    (∀ (a : Assertion) (mvr cvr : CVR) (us : Bool),
      a.overstatement_assorter mvr cvr us =
        (a.overstatement mvr cvr us).map
          (fun o => overstatement_assorter_val o a.assorter.upper_bound a.margin)) ∧
    (∀ o u m : ℚ, 0 < u → 0 < m → m ≤ u → -u ≤ o → o ≤ u →
      0 ≤ overstatement_assorter_val o u m ∧
        overstatement_assorter_val o u m ≤ 2 / (2 - m / u)) := by
  constructor
  · intro a mvr cvr us
    rfl
  · intro o u m hu hm hmu hlo hhi
    have hmu1 : m / u ≤ 1 := (div_le_one hu).mpr hmu
    have hden : (0:ℚ) < 2 - m / u := by linarith
    have hou1 : o / u ≤ 1 := (div_le_one hu).mpr hhi
    have hou2 : -1 ≤ o / u := by
      have h1 : -u / u ≤ o / u := by gcongr
      rwa [neg_div, div_self (ne_of_gt hu)] at h1
    unfold overstatement_assorter_val
    constructor
    · exact div_nonneg (by linarith) (le_of_lt hden)
    · exact (div_le_div_iff_of_pos_right hden).mpr (by linarith)

/-- Witness for C2: at `o = 0`, `u = 1`, `margin = 1/2` the hypotheses
of the amended bound hold and the bound is delivered. -/
theorem C2_witness :
    (0:ℚ) < 1 ∧ (0:ℚ) < 1/2 ∧ (1/2:ℚ) ≤ 1 ∧ -(1:ℚ) ≤ 0 ∧ (0:ℚ) ≤ 1 ∧
    (0 ≤ overstatement_assorter_val 0 1 (1/2) ∧
      overstatement_assorter_val 0 1 (1/2) ≤ 2 / (2 - (1/2) / 1)) :=
  ⟨by norm_num, by norm_num, by norm_num, by norm_num, by norm_num,
   C2_amended.2 0 1 (1/2) (by norm_num) (by norm_num) (by norm_num) (by norm_num) (by norm_num)⟩

/-- Claim C3, counterexample to the bound part as stated: the
constructor performs no validation tying `upper_bound` to the derived
winner/loser scorer, so with constant indicators `winner = 1`,
`loser = 0` (values in {0,1}) and `upper_bound = 1/2`, the derived
`assort` returns `1`, outside `[0, upper_bound]`. -/
theorem C3_counterexample :
    ((Assorter.make "c" none (some (fun _ => (1:ℚ))) (some (fun _ => (0:ℚ))) (1/2)).map
        (fun A => A.assort cvrNo) = .ok 1) ∧
    ((Assorter.make "c" none (some (fun _ => (1:ℚ))) (some (fun _ => (0:ℚ))) (1/2)).map
        (fun A => A.upper_bound) = .ok (1/2)) ∧
    (1/2 : ℚ) < 1 := by
  refine ⟨?_, rfl, by norm_num⟩
  show Except.ok (((1:ℚ) - 0 + 1) / 2) = .ok 1
  norm_num

/-- Claim C3 as amended: when `assort=None` and both indicators are
callable, the constructed scorer is `(winner(b) - loser(b) + 1)/2` for
every ballot; whenever the indicators take values in {0,1} on a ballot
AND `upper_bound ≥ 1`, the score lies in `[0, upper_bound]`; and
construction with `assort=None` and a missing winner or loser fails with
the corresponding assertion error. -/
theorem C3_amended :
    (∀ (cid : String) (w l : CVR → ℚ) (ub : ℚ) (b : CVR),
      (Assorter.make cid none (some w) (some l) ub).map (fun A => A.assort b) =
        .ok ((w b - l b + 1) / 2)) ∧
    (∀ (cid : String) (w l : CVR → ℚ) (ub : ℚ) (b : CVR) (A : Assorter),
      Assorter.make cid none (some w) (some l) ub = .ok A →
      (w b = 0 ∨ w b = 1) → (l b = 0 ∨ l b = 1) → 1 ≤ ub →
      0 ≤ A.assort b ∧ A.assort b ≤ ub) ∧
    (∀ (cid : String) (lo : Option (CVR → ℚ)) (ub : ℚ),
      Assorter.make cid none none lo ub =
        .error "AssertionError: winner must be callable if assort is None") ∧
    (∀ (cid : String) (w : CVR → ℚ) (ub : ℚ),
      Assorter.make cid none (some w) none ub =
        .error "AssertionError: loser must be callable if assort is None") := by
  refine ⟨fun cid w l ub b => rfl, ?_, fun cid lo ub => rfl, fun cid w ub => rfl⟩
  intro cid w l ub b A hA hw hl hub
  have hAv : A.assort b = (w b - l b + 1) / 2 := by
    simp only [Assorter.make, Except.ok.injEq] at hA
    rw [← hA]
  rw [hAv]
  rcases hw with hw | hw <;> rcases hl with hl | hl <;> rw [hw, hl] <;>
    constructor <;> norm_num <;> linarith

/-- Witness for C3: the amended bound at the concrete derived assorter
`c3wA` with indicator values 1 and 0 and `upper_bound = 1`. -/
theorem C3_witness :
    ((1:ℚ) = 0 ∨ (1:ℚ) = 1) ∧ ((0:ℚ) = 0 ∨ (0:ℚ) = 1) ∧ (1:ℚ) ≤ 1 ∧
    (0 ≤ c3wA.assort cvrNo ∧ c3wA.assort cvrNo ≤ 1) :=
  ⟨Or.inr rfl, Or.inl rfl, le_refl 1,
   C3_amended.2.1 "c" (fun _ => (1:ℚ)) (fun _ => (0:ℚ)) 1 cvrNo c3wA rfl
     (Or.inr rfl) (Or.inl rfl) (le_refl 1)⟩

/-- Claim C10: for a POLLING contest, the discrepancy sequence handed to
the sequential test is `assort(mvr)` for every MVR of the sample — no
contest-membership filter and no dependence on `use_style` — while the
contest-membership filter of the comparison branch
(`comparisonFilter`) tests membership exactly when `use_style` is
set. -/
theorem C10_polling_no_filter (rl : ℚ) (us : Bool) (key : String) (mvr_sample : List CVR)
    (cvr_sample : Option (List CVR)) (a : Assertion) (cvr : CVR) :
    dSelect POLLING us key mvr_sample cvr_sample a = .ok (mvr_sample.map a.assorter.assort) ∧
    update_assertion rl POLLING us key mvr_sample cvr_sample a =
      .ok (testAndUpdate rl a (mvr_sample.map a.assorter.assort)) ∧
    comparisonFilter key true cvr = cvr.has_contest key ∧
    comparisonFilter key false cvr = true := by
  have h1 : dSelect POLLING us key mvr_sample cvr_sample a =
      .ok (mvr_sample.map a.assorter.assort) := by
    unfold dSelect
    rw [if_neg (by decide : ¬(POLLING = BALLOT_COMPARISON)), if_pos rfl]
  refine ⟨h1, ?_, rfl, rfl⟩
  unfold update_assertion
  rw [h1]
  rfl

/-- Inversion for `Except.map` hitting `.ok`. -/
theorem except_map_ok {ε α β : Type} {f : α → β} {e : Except ε α} {b : β}
    (h : e.map f = .ok b) : ∃ a, e = .ok a ∧ f a = b := by
  cases e with
  | error s => simp [Except.map] at h
  | ok a =>
      refine ⟨a, rfl, ?_⟩
      simpa [Except.map] using h

/-- A successful per-assertion update carries its new p-value and obeys
the sticky `proved` rule. -/
theorem update_assertion_ok {rl : ℚ} {atype : String} {us : Bool} {key : String}
    {mvr : List CVR} {cvrs : Option (List CVR)} {a a' : Assertion} {p : ℚ}
    (h : update_assertion rl atype us key mvr cvrs a = .ok (a', p)) :
    a'.p_value = p ∧ a'.proved = (decide (p ≤ rl) || a.proved) := by
  obtain ⟨d, _, hf⟩ := except_map_ok h
  have h1 : a' = (testAndUpdate rl a d).1 := by rw [hf]
  have h2 : p = (testAndUpdate rl a d).2 := by rw [hf]
  subst h1
  subst h2
  exact ⟨rfl, rfl⟩

/-- A successful assertion-loop run: `cmax` is a nonnegative upper bound
of the new p-values, least among nonnegative bounds, and each updated
assertion obeys the sticky `proved` rule with its new p-value. -/
theorem update_assertion_list_ok (rl : ℚ) (atype : String) (us : Bool) (key : String)
    (mvr : List CVR) (cvrs : Option (List CVR)) :
    ∀ (al al' : List (String × Assertion)) (pvs : List (String × ℚ))
      (prs : List (String × ℤ)) (cmax : ℚ),
      update_assertion_list rl atype us key mvr cvrs al = .ok (al', pvs, prs, cmax) →
      0 ≤ cmax ∧
      (∀ q : ℚ, 0 ≤ q → (∀ ka' ∈ al', ka'.2.p_value ≤ q) → cmax ≤ q) ∧
      List.Forall₂ (fun ka ka' : String × Assertion =>
          ka'.2.p_value ≤ cmax ∧
          ka'.2.proved = (decide (ka'.2.p_value ≤ rl) || ka.2.proved)) al al' := by
  intro al
  induction al with
  | nil =>
      intro al' pvs prs cmax h
      simp only [update_assertion_list, Except.ok.injEq, Prod.mk.injEq] at h
      obtain ⟨h1, _, _, h4⟩ := h
      subst h1
      subst h4
      exact ⟨le_refl 0, fun q hq _ => hq, List.Forall₂.nil⟩
  | cons hd tl ih =>
      intro al' pvs prs cmax h
      obtain ⟨k, a⟩ := hd
      simp only [update_assertion_list] at h
      cases hu : update_assertion rl atype us key mvr cvrs a with
      | error e => rw [hu] at h; exact absurd h (by simp)
      | ok r =>
          rw [hu] at h
          cases ht : update_assertion_list rl atype us key mvr cvrs tl with
          | error e => rw [ht] at h; exact absurd h (by simp)
          | ok t =>
              rw [ht] at h
              simp only [Except.ok.injEq, Prod.mk.injEq] at h
              obtain ⟨h1, _, _, h4⟩ := h
              subst h1
              subst h4
              obtain ⟨iha, ihb, ihc⟩ := ih t.1 t.2.1 t.2.2.1 t.2.2.2 ht
              obtain ⟨hp, hpr⟩ := update_assertion_ok hu
              refine ⟨le_trans iha (le_max_right _ _), ?_, ?_⟩
              · intro q hq hall
                refine max_le ?_ (ihb q hq fun ka' hka' => hall ka' (List.mem_cons_of_mem _ hka'))
                have hh := hall (k, r.1) (List.mem_cons_self _ _)
                rwa [hp] at hh
              · refine List.Forall₂.cons ⟨?_, ?_⟩ ?_
                · rw [hp]; exact le_max_left _ _
                · rw [hp]; exact hpr
                · exact ihc.imp (fun x y hxy => ⟨le_trans hxy.1 (le_max_right _ _), hxy.2⟩)

/-- A successful per-contest update establishes `contestUpdated`. -/
theorem update_contest_ok (mvr : List CVR) (cvrs : Option (List CVR)) (k : String)
    (c c' : Contest) (m : ℚ) (h : update_contest mvr cvrs k c = .ok (c', m)) :
    contestUpdated (k, c) (k, c') := by
  simp only [update_contest] at h
  cases hu : update_assertion_list c.risk_limit c.audit_type c.use_style k mvr cvrs
      c.assertions with
  | error e => rw [hu] at h; exact absurd h (by simp)
  | ok r =>
      rw [hu] at h
      simp only [Except.ok.injEq, Prod.mk.injEq] at h
      obtain ⟨h1, _⟩ := h
      subst h1
      obtain ⟨hnn, hq, hfa⟩ :=
        update_assertion_list_ok c.risk_limit c.audit_type c.use_style k mvr cvrs
          c.assertions r.1 r.2.1 r.2.2.1 r.2.2.2 hu
      exact ⟨rfl, hnn, hq, hfa⟩

/-- A successful contest-loop run updates every contest as described by
`contestUpdated`, pointwise in order. -/
theorem update_contest_list_ok (mvr : List CVR) (cvrs : Option (List CVR)) :
    ∀ (cl cl' : List (String × Contest)) (pm : ℚ),
      update_contest_list mvr cvrs cl = .ok (cl', pm) →
      List.Forall₂ contestUpdated cl cl' := by
  intro cl
  induction cl with
  | nil =>
      intro cl' pm h
      simp only [update_contest_list, Except.ok.injEq, Prod.mk.injEq] at h
      obtain ⟨h1, _⟩ := h
      subst h1
      exact List.Forall₂.nil
  | cons hd tl ih =>
      intro cl' pm h
      obtain ⟨k, c⟩ := hd
      simp only [update_contest_list] at h
      cases hu : update_contest mvr cvrs k c with
      | error e => rw [hu] at h; exact absurd h (by simp)
      | ok r =>
          rw [hu] at h
          cases ht : update_contest_list mvr cvrs tl with
          | error e => rw [ht] at h; exact absurd h (by simp)
          | ok t =>
              rw [ht] at h
              simp only [Except.ok.injEq, Prod.mk.injEq] at h
              obtain ⟨h1, _⟩ := h
              subst h1
              exact List.Forall₂.cons
                (update_contest_ok mvr cvrs k c r.1 r.2 (by rw [hu]))
                (ih t.1 t.2 (by rw [ht]))

/-- A successful `set_all_p_values` run updates every contest as
described by `contestUpdated`. -/
theorem set_all_p_values_ok (contests : List (String × Contest)) (mvr : List CVR)
    (cvrs : Option (List CVR)) (out : List (String × Contest) × ℚ)
    (h : set_all_p_values contests mvr cvrs = .ok out) :
    List.Forall₂ contestUpdated contests out.1 := by
  obtain ⟨out1, out2⟩ := out
  cases cvrs with
  | none =>
      simp only [set_all_p_values] at h
      exact update_contest_list_ok mvr none contests out1 out2 h
  | some cs =>
      simp only [set_all_p_values] at h
      by_cases hlen : mvr.length = cs.length
      · rw [if_pos hlen] at h
        exact update_contest_list_ok mvr (some cs) contests out1 out2 h
      · rw [if_neg hlen] at h
        exact absurd h (by simp)

/-- Right-to-left membership extraction from `List.Forall₂`. -/
theorem forall2_mem_right {α β : Type} {R : α → β → Prop} :
    ∀ {l₁ : List α} {l₂ : List β}, List.Forall₂ R l₁ l₂ → ∀ b ∈ l₂, ∃ a ∈ l₁, R a b := by
  intro l₁ l₂ h
  induction h with
  | nil => intro b hb; exact absurd hb (List.not_mem_nil b)
  | @cons a b t₁ t₂ hr _ ih =>
      intro x hx
      rcases List.mem_cons.mp hx with rfl | hx'
      · exact ⟨a, List.mem_cons_self a t₁, hr⟩
      · obtain ⟨y, hy, hRy⟩ := ih x hx'
        exact ⟨y, List.mem_cons_of_mem a hy, hRy⟩

/-- Claim C5: across any `set_all_p_values` run, `proved` is monotone —
an assertion whose `proved` flag was true stays true — and the new flag
is true exactly when the newly computed p-value is at most the contest's
risk limit or the flag was already true. -/
theorem C5_proved_monotone (contests : List (String × Contest)) (mvr_sample : List CVR)
    (cvr_sample : Option (List CVR)) (out : List (String × Contest) × ℚ)
    (h : set_all_p_values contests mvr_sample cvr_sample = .ok out) :
    List.Forall₂ (fun kc kc' : String × Contest =>
      List.Forall₂ (fun ka ka' : String × Assertion =>
          (ka.2.proved = true → ka'.2.proved = true) ∧
          ka'.2.proved = (decide (ka'.2.p_value ≤ kc.2.risk_limit) || ka.2.proved))
        kc.2.assertions kc'.2.assertions) contests out.1 := by
  refine (set_all_p_values_ok contests mvr_sample cvr_sample out h).imp ?_
  intro kc kc' hcu
  obtain ⟨hrl, hnn, hq, hfa⟩ := hcu
  refine hfa.imp ?_
  intro ka ka' hka
  obtain ⟨hple, hpr⟩ := hka
  refine ⟨?_, hpr⟩
  intro hold
  rw [hpr, hold, Bool.or_true]

/-- Witness for C5: the monotonicity statement delivered on the concrete
one-contest polling run `wRun`. -/
theorem C5_witness :
    List.Forall₂ (fun kc kc' : String × Contest =>
      List.Forall₂ (fun ka ka' : String × Assertion =>
          (ka.2.proved = true → ka'.2.proved = true) ∧
          ka'.2.proved = (decide (ka'.2.p_value ≤ kc.2.risk_limit) || ka.2.proved))
        kc.2.assertions kc'.2.assertions) wIn wOut := by
  have hok : set_all_p_values wIn [] none = .ok (wOut, wPm) := by
    norm_num [wOut, wPm, wRun, wIn, wContest, wAssertion, unitAssorter, contestsOf, pmaxOf,
      set_all_p_values, update_contest_list, update_contest, update_assertion_list,
      update_assertion, dSelect, testAndUpdate, POLLING, BALLOT_COMPARISON, Except.map,
      max_def]
  exact C5_proved_monotone wIn [] none (wOut, wPm) hok

/-- Claim C4, counterexample to the equivalence as stated: on a polling
contest whose single assertion was already `proved` but whose test now
reports p-value 1 at risk limit 1/20, after `set_all_p_values` every
assertion of the contest is proved yet `max_p = 1 > risk_limit`, so
"all proved" does not imply `max_p ≤ risk_limit`: the sticky `proved`
flag breaks the claimed iff. -/
theorem C4_counterexample :
    (contestsOf (set_all_p_values [("c1", c4Contest)] [] none)).map
        (fun kc => (kc.2.assertions.all (fun ka => ka.2.proved),
                    decide (kc.2.max_p ≤ kc.2.risk_limit))) = [(true, false)] := by
  norm_num [contestsOf, set_all_p_values, update_contest_list, update_contest,
    update_assertion_list, update_assertion, dSelect, testAndUpdate, c4Contest,
    c4Assertion, unitAssorter, POLLING, BALLOT_COMPARISON, Except.map, max_def]

/-- Claim C4 as amended: after `set_all_p_values`, for every contest,
`max_p ≤ risk_limit` implies every assertion is proved; the converse —
hence the claimed equivalence — holds provided the risk limit is
nonnegative and no assertion of the contest was already proved before
the call (the sticky `proved` flag otherwise lets all assertions stay
proved while `max_p` exceeds the risk limit). -/
theorem C4_amended (contests : List (String × Contest)) (mvr_sample : List CVR)
    (cvr_sample : Option (List CVR)) (out : List (String × Contest) × ℚ)
    (h : set_all_p_values contests mvr_sample cvr_sample = .ok out) :
    List.Forall₂ (fun kc kc' : String × Contest =>
      (kc'.2.max_p ≤ kc.2.risk_limit → ∀ ka' ∈ kc'.2.assertions, ka'.2.proved = true) ∧
      (0 ≤ kc.2.risk_limit → (∀ ka ∈ kc.2.assertions, ka.2.proved = false) →
        (∀ ka' ∈ kc'.2.assertions, ka'.2.proved = true) →
        kc'.2.max_p ≤ kc.2.risk_limit)) contests out.1 := by
  refine (set_all_p_values_ok contests mvr_sample cvr_sample out h).imp ?_
  intro kc kc' hcu
  obtain ⟨hrl, hnn, hq, hfa⟩ := hcu
  constructor
  · intro hmp ka' hka'
    obtain ⟨ka, hka, hR⟩ := forall2_mem_right hfa ka' hka'
    obtain ⟨hple, hpr⟩ := hR
    rw [hpr, decide_eq_true (le_trans hple hmp), Bool.true_or]
  · intro h0 hold hall
    refine hq kc.2.risk_limit h0 ?_
    intro ka' hka'
    obtain ⟨ka, hka, hR⟩ := forall2_mem_right hfa ka' hka'
    obtain ⟨hple, hpr⟩ := hR
    have hp' := hall ka' hka'
    rw [hpr, hold ka hka, Bool.or_false] at hp'
    exact of_decide_eq_true hp'

/-- Witness for C4: the amended statement delivered on the concrete
one-contest polling run `wRun`. -/
theorem C4_witness :
    List.Forall₂ (fun kc kc' : String × Contest =>
      (kc'.2.max_p ≤ kc.2.risk_limit → ∀ ka' ∈ kc'.2.assertions, ka'.2.proved = true) ∧
      (0 ≤ kc.2.risk_limit → (∀ ka ∈ kc.2.assertions, ka.2.proved = false) →
        (∀ ka' ∈ kc'.2.assertions, ka'.2.proved = true) →
        kc'.2.max_p ≤ kc.2.risk_limit)) wIn wOut := by
  have hok : set_all_p_values wIn [] none = .ok (wOut, wPm) := by
    norm_num [wOut, wPm, wRun, wIn, wContest, wAssertion, unitAssorter, contestsOf, pmaxOf,
      set_all_p_values, update_contest_list, update_contest, update_assertion_list,
      update_assertion, dSelect, testAndUpdate, POLLING, BALLOT_COMPARISON, Except.map,
      max_def]
  exact C4_amended wIn [] none (wOut, wPm) hok
